import Mathlib

/-
Shallow embedding of the relay-trader backtesting core
(src/backend/relaytrader/core/*.py) and proofs about the claims of its
specification.  Prices, quantities and cash are modelled with exact
rationals; transcendental kernels (normal cdf/pdf, log, exp, sqrt) and
calendar arithmetic, which the Python code delegates to scipy/math/datetime,
are abstracted as function parameters bundled in a RealFns record.
-/

namespace RelayTrader

/-- Order side, from types.py (class Side). -/
inductive Side
  | BUY
  | SELL
  deriving DecidableEq

/-- Order type, from types.py (class OrderType). -/
inductive OrderType
  | MARKET
  | LIMIT
  | STOP
  | STOP_LIMIT
  deriving DecidableEq

/-- Time in force, from types.py (class TimeInForce). -/
inductive TimeInForce
  | DAY
  | GTC
  deriving DecidableEq

/-- Order status, from types.py (class OrderStatus). -/
inductive OrderStatus
  | NEW
  | PARTIALLY_FILLED
  | FILLED
  | CANCELLED
  | REJECTED
  deriving DecidableEq

/-- OHLCV bar, from types.py (class Bar).  The Python field `open` is a Lean
keyword and is rendered `opn`. -/
structure Bar where
  timestamp : Int
  symbol : String
  opn : ℚ
  high : ℚ
  low : ℚ
  close : ℚ
  volume : ℚ
  deriving DecidableEq

/-- Order record, from types.py (class Order). -/
structure Order where
  id : Int
  symbol : String
  side : Side
  qty : ℚ
  order_type : OrderType
  time_in_force : TimeInForce := TimeInForce.DAY
  limit_price : Option ℚ := none
  stop_price : Option ℚ := none
  status : OrderStatus := OrderStatus.NEW
  filled_qty : ℚ := 0
  avg_fill_price : ℚ := 0
  deriving DecidableEq

/-- Fill record, from types.py (class Fill). -/
structure Fill where
  order_id : Int
  timestamp : Int
  symbol : String
  side : Side
  qty : ℚ
  price : ℚ
  commission : ℚ := 0
  slippage : ℚ := 0
  deriving DecidableEq

/-- Position record, from types.py (class Position). -/
structure Position where
  symbol : String
  qty : ℚ := 0
  avg_price : ℚ := 0
  deriving DecidableEq

/-- Signed quantity of a fill: +qty for BUY, -qty for SELL
(the expression `fill.qty if fill.side == Side.BUY else -fill.qty`). -/
def signedQty (f : Fill) : ℚ :=
  if f.side = Side.BUY then f.qty else -f.qty

/-- Position.apply_fill from types.py, lines 95-127. -/
def Position.apply_fill (p : Position) (f : Fill) : Position :=
  if p.qty = 0 then
    { p with qty := signedQty f, avg_price := f.price }
  else
    let signed_qty := signedQty f
    let new_qty := p.qty + signed_qty
    if p.qty * signed_qty > 0 then
      let total_cost := p.avg_price * |p.qty| + f.price * |signed_qty|
      { p with qty := new_qty, avg_price := total_cost / |new_qty| }
    else
      if p.qty * new_qty > 0 then
        { p with qty := new_qty }
      else
        if new_qty = 0 then
          { p with qty := 0, avg_price := 0 }
        else
          { p with qty := new_qty, avg_price := f.price }

/-- Folding a list of fills into a position, one Position.apply_fill per fill. -/
def applyFills (p : Position) (fills : List Fill) : Position :=
  fills.foldl Position.apply_fill p

/-- Lookup in an insertion-ordered association list, modelling Python
dict.get(key). -/
def assocFind {α : Type} (l : List (String × α)) (k : String) : Option α :=
  (l.find? (fun kv => kv.1 == k)).map (fun kv => kv.2)

/-- Replace the value stored at the first occurrence of a key, modelling an
in-place update of an existing dict entry. -/
def assocSet {α : Type} : List (String × α) → String → α → List (String × α)
  | [], _, _ => []
  | (k, v) :: rest, key, a =>
      if k == key then (k, a) :: rest else (k, v) :: assocSet rest key a

/-- Portfolio record, from broker.py (class Portfolio).  The positions dict is
an insertion-ordered association list, like a Python dict. -/
structure Portfolio where
  cash : ℚ
  positions : List (String × Position) := []
  equity : ℚ := 0
  deriving DecidableEq

/-- Portfolio.update_equity from broker.py, lines 25-30: equity is cash plus
qty times mark price for every position whose symbol has a price. -/
def Portfolio.update_equity (pf : Portfolio) (prices : List (String × ℚ)) : Portfolio :=
  { pf with
    equity := pf.positions.foldl
      (fun acc kv =>
        match assocFind prices kv.1 with
        | some px => acc + kv.2.qty * px
        | none => acc)
      pf.cash }

/-- Portfolio.apply_fill from broker.py, lines 32-45: inserts a fresh Position
for an unseen symbol, applies the fill to it, and updates cash by
sign * qty * price - commission - slippage with sign = +1 for SELL and -1
otherwise. -/
def Portfolio.apply_fill (pf : Portfolio) (f : Fill) : Portfolio :=
  let ps :=
    if (assocFind pf.positions f.symbol).isNone then
      pf.positions ++ [(f.symbol, { symbol := f.symbol : Position })]
    else
      pf.positions
  let pos := ((assocFind ps f.symbol).getD { symbol := f.symbol : Position }).apply_fill f
  let sign : ℚ := if f.side = Side.SELL then 1 else -1
  { cash := pf.cash + sign * f.qty * f.price - f.commission - f.slippage,
    positions := assocSet ps f.symbol pos,
    equity := pf.equity }

/-- SimpleBroker state, from broker.py (class SimpleBroker).  The orders dict
is keyed by incrementing id and iterated in insertion order, so it is modelled
as an insertion-ordered list of orders; the nested price-history dicts are
association lists. -/
structure SimpleBroker where
  portfolio : Portfolio
  symbol : String
  commission_per_trade : ℚ
  orders : List Order := []
  fills : List Fill := []
  next_order_id : Int := 1
  price_history : List (String × List (String × List ℚ)) := []
  deriving DecidableEq

/-- SimpleBroker.__init__ from broker.py, lines 56-70 (note: there is no
slippage parameter in the source). -/
def SimpleBroker.init (initial_cash : ℚ) (symbol : String)
    (commission_per_trade : ℚ := 0) : SimpleBroker :=
  { portfolio := { cash := initial_cash },
    symbol := symbol,
    commission_per_trade := commission_per_trade,
    orders := [],
    fills := [],
    next_order_id := 1,
    price_history :=
      [(symbol, [("open", []), ("high", []), ("low", []), ("close", []), ("volume", [])])] }

/-- SimpleBroker._submit_order from broker.py, lines 139-165. -/
def SimpleBroker.submit_order (b : SimpleBroker) (symbol : String) (qty : ℚ)
    (side : Side) (order_type : OrderType) (limit_price stop_price : Option ℚ)
    (time_in_force : TimeInForce) : SimpleBroker × Order :=
  let ord : Order :=
    { id := b.next_order_id, symbol := symbol, side := side, qty := qty,
      order_type := order_type, time_in_force := time_in_force,
      limit_price := limit_price, stop_price := stop_price }
  ({ b with next_order_id := b.next_order_id + 1, orders := b.orders ++ [ord] }, ord)

/-- SimpleBroker.buy from broker.py, lines 74-93. -/
def SimpleBroker.buy (b : SimpleBroker) (symbol : String) (qty : ℚ)
    (order_type : OrderType := OrderType.MARKET)
    (limit_price : Option ℚ := none) (stop_price : Option ℚ := none)
    (time_in_force : TimeInForce := TimeInForce.DAY) : SimpleBroker × Order :=
  b.submit_order symbol qty Side.BUY order_type limit_price stop_price time_in_force

/-- SimpleBroker.sell from broker.py, lines 95-114. -/
def SimpleBroker.sell (b : SimpleBroker) (symbol : String) (qty : ℚ)
    (order_type : OrderType := OrderType.MARKET)
    (limit_price : Option ℚ := none) (stop_price : Option ℚ := none)
    (time_in_force : TimeInForce := TimeInForce.DAY) : SimpleBroker × Order :=
  b.submit_order symbol qty Side.SELL order_type limit_price stop_price time_in_force

/-- SimpleBroker.get_history from broker.py, lines 131-135:
hist = self.price_history.get(symbol, default empty).get(field, default empty);
return the whole list when lookback <= 0, else the Python slice
hist[-lookback:], which is drop (length - lookback). -/
def SimpleBroker.get_history (b : SimpleBroker) (symbol fld : String)
    (lookback : Int) : List ℚ :=
  let hist := (assocFind ((assocFind b.price_history symbol).getD []) fld).getD []
  if lookback ≤ 0 then hist
  else hist.drop (hist.length - lookback.toNat)

/-- Fill-price determination for one order on one bar, from the body of
SimpleBroker.on_bar, broker.py lines 188-201.  Only MARKET and LIMIT orders
can produce a price; for every other order type the source leaves
fill_price = None (the comment there reads: STOP, STOP_LIMIT, etc. can be
added later). -/
def fillPrice (bar : Bar) (ord : Order) : Option ℚ :=
  match ord.order_type with
  | OrderType.MARKET => some bar.close
  | OrderType.LIMIT =>
      match ord.side, ord.limit_price with
      | Side.BUY, some lp => if bar.low ≤ lp then some (min lp bar.close) else none
      | Side.SELL, some lp => if bar.high ≥ lp then some (max lp bar.close) else none
      | _, none => none
  | _ => none

/-- Appending one bar to the per-field history lists of the broker's symbol,
from broker.py lines 174-180. -/
def updateHistory (ph : List (String × List (String × List ℚ)))
    (symbol : String) (bar : Bar) : List (String × List (String × List ℚ)) :=
  match assocFind ph symbol with
  | none => ph
  | some m =>
      let m := assocSet m "open" (((assocFind m "open").getD []) ++ [bar.opn])
      let m := assocSet m "high" (((assocFind m "high").getD []) ++ [bar.high])
      let m := assocSet m "low" (((assocFind m "low").getD []) ++ [bar.low])
      let m := assocSet m "close" (((assocFind m "close").getD []) ++ [bar.close])
      let m := assocSet m "volume" (((assocFind m "volume").getD []) ++ [bar.volume])
      assocSet ph symbol m

/-- One iteration of the order-matching loop of SimpleBroker.on_bar,
broker.py lines 184-224: skip orders not in NEW or PARTIALLY_FILLED,
otherwise compute the fill price; on a match build the Fill with the flat
commission and slippage 0.0, apply it to the portfolio, mark the order
FILLED, and record the fill. -/
def onBarStep (commission : ℚ) (bar : Bar)
    (acc : List Order × List Fill × Portfolio) (ord : Order) :
    List Order × List Fill × Portfolio :=
  if ord.status = OrderStatus.NEW ∨ ord.status = OrderStatus.PARTIALLY_FILLED then
    match fillPrice bar ord with
    | some px =>
        let fill : Fill :=
          { order_id := ord.id, timestamp := bar.timestamp, symbol := ord.symbol,
            side := ord.side, qty := ord.qty - ord.filled_qty, price := px,
            commission := commission, slippage := 0 }
        (acc.1 ++ [{ ord with filled_qty := ord.filled_qty + fill.qty,
                              avg_fill_price := fill.price,
                              status := OrderStatus.FILLED }],
         acc.2.1 ++ [fill], acc.2.2.apply_fill fill)
    | none => (acc.1 ++ [ord], acc.2.1, acc.2.2)
  else
    (acc.1 ++ [ord], acc.2.1, acc.2.2)

/-- SimpleBroker.on_bar from broker.py, lines 167-227: update history, run the
matching loop over the open orders, mark equity at the bar close, and return
the new broker state together with this bar's fills. -/
def SimpleBroker.on_bar (b : SimpleBroker) (bar : Bar) : SimpleBroker × List Fill :=
  let ph := updateHistory b.price_history b.symbol bar
  let res := b.orders.foldl (onBarStep b.commission_per_trade bar) ([], [], b.portfolio)
  let pf := res.2.2.update_equity [(b.symbol, bar.close)]
  ({ b with price_history := ph, orders := res.1,
            fills := b.fills ++ res.2.1, portfolio := pf },
   res.2.1)

/-- Success predicate of a Python call made with keyword arguments only:
every passed keyword must name a declared parameter (otherwise the call
raises TypeError for an unexpected keyword argument) and every parameter
without a default must be passed. -/
def pythonKwCallOk (params required kwargs : List String) : Bool :=
  kwargs.all (fun k => params.contains k) && required.all (fun k => kwargs.contains k)

/-- Parameter names of SimpleBroker.__init__ (broker.py line 56), excluding
self; only commission_per_trade has a default. -/
def simpleBrokerInitParams : List String :=
  ["initial_cash", "symbol", "commission_per_trade"]

/-- Parameters of SimpleBroker.__init__ that have no default value. -/
def simpleBrokerInitRequired : List String :=
  ["initial_cash", "symbol"]

/-- Keyword arguments passed to SimpleBroker by BacktestEngine.run
(backtest.py lines 45-50). -/
def backtestRunBrokerKwargs : List String :=
  ["initial_cash", "symbol", "commission_per_trade", "slippage_bps"]

/-- Performance statistics record, from metrics.py (class PerformanceStats). -/
structure PerformanceStats where
  total_return : ℚ
  annualized_return : ℚ
  volatility : ℚ
  sharpe : ℚ
  sortino : ℚ
  calmar : ℚ
  max_drawdown : ℚ
  equity_curve : List ℚ
  drawdown_curve : List ℚ
  deriving DecidableEq

/-- Arithmetic mean of a list of rationals (numpy mean). -/
def listMean (l : List ℚ) : ℚ := l.sum / (l.length : ℚ)

/-- Population variance of a list of rationals; numpy std is its square
root, taken through the abstract sqrt parameter. -/
def listVar (l : List ℚ) : ℚ :=
  ((l.map (fun r => (r - listMean l) ^ 2)).sum) / (l.length : ℚ)

/-- Tail of np.maximum.accumulate given the running maximum so far. -/
def runningMaxAux (acc : ℚ) : List ℚ → List ℚ
  | [] => []
  | x :: xs => (max acc x) :: runningMaxAux (max acc x) xs

/-- np.maximum.accumulate over the equity curve. -/
def runningMax : List ℚ → List ℚ
  | [] => []
  | x :: xs => x :: runningMaxAux x xs

/-- compute_performance from metrics.py, lines 22-78.  The square root used
by numpy std and by the Sharpe and Sortino denominators is abstracted as the
parameter sq. -/
def computePerformance (sq : ℚ → ℚ) (equity_curve : List ℚ)
    (periods_per_year : ℕ := 252) : PerformanceStats :=
  if equity_curve.length < 2 then
    { total_return := 0, annualized_return := 0, volatility := 0, sharpe := 0,
      sortino := 0, calmar := 0, max_drawdown := 0,
      equity_curve := equity_curve,
      drawdown_curve := equity_curve.map (fun _ => 0) }
  else
    let rets := List.zipWith (fun prev next => (next - prev) / prev)
        equity_curve (equity_curve.drop 1)
    let total_return := (equity_curve.getLastD 0) / (equity_curve.headD 0) - 1
    let mean_ret := listMean rets
    let vol := sq (listVar rets)
    let downside := rets.filter (fun r => r < 0)
    let downside_vol := if downside.length > 0 then sq (listVar downside) else 0
    let sharpe := if vol = 0 then 0
      else (mean_ret * (periods_per_year : ℚ)) / (vol * sq (periods_per_year : ℚ))
    let sortino := if downside_vol = 0 then 0
      else (mean_ret * (periods_per_year : ℚ)) / (downside_vol * sq (periods_per_year : ℚ))
    let annualized_return := (1 + mean_ret) ^ periods_per_year - 1
    let drawdown := List.zipWith (fun e m => (e - m) / m)
        equity_curve (runningMax equity_curve)
    let max_dd := match drawdown with
      | [] => 0
      | d :: ds => ds.foldl min d
    let calmar := if max_dd ≠ 0 then annualized_return / |max_dd| else 0
    { total_return := total_return, annualized_return := annualized_return,
      volatility := vol, sharpe := sharpe, sortino := sortino, calmar := calmar,
      max_drawdown := max_dd, equity_curve := equity_curve,
      drawdown_curve := drawdown }

/-- Trade statistics record, from metrics.py (class TradeStats). -/
structure TradeStats where
  total_pnl : ℚ
  total_commission : ℚ
  total_slippage : ℚ
  net_pnl : ℚ
  win_rate : ℚ
  avg_win : ℚ
  avg_loss : ℚ
  num_trades : ℕ
  turnover : ℚ
  deriving DecidableEq

/-- Loop state of compute_trade_stats (the running position, average cost and
accumulators of metrics.py lines 98-104). -/
structure TradeAcc where
  current_qty : ℚ
  avg_cost : ℚ
  realized_list : List ℚ
  total_commission : ℚ
  total_slippage : ℚ
  gross_notional : ℚ
  deriving DecidableEq

/-- One iteration of the fill loop of compute_trade_stats, metrics.py lines
106-134: accumulate fees and notional, update the running position exactly as
Position.apply_fill does, realize P&L on the closed portion, and append the
per-fill realized P&L net of that fill's commission and slippage. -/
def tradeStep (acc : TradeAcc) (f : Fill) : TradeAcc :=
  let total_commission := acc.total_commission + f.commission
  let total_slippage := acc.total_slippage + f.slippage
  let gross_notional := acc.gross_notional + |f.qty * f.price|
  let signed_qty := signedQty f
  if acc.current_qty = 0 then
    { current_qty := signed_qty, avg_cost := f.price,
      realized_list := acc.realized_list ++ [0 - f.commission - f.slippage],
      total_commission := total_commission, total_slippage := total_slippage,
      gross_notional := gross_notional }
  else if acc.current_qty * signed_qty > 0 then
    let new_qty := acc.current_qty + signed_qty
    { current_qty := new_qty,
      avg_cost := (|acc.current_qty| * acc.avg_cost + |signed_qty| * f.price) / |new_qty|,
      realized_list := acc.realized_list ++ [0 - f.commission - f.slippage],
      total_commission := total_commission, total_slippage := total_slippage,
      gross_notional := gross_notional }
  else
    let sign : ℚ := if acc.current_qty > 0 then 1 else -1
    let close_qty := min |acc.current_qty| |signed_qty|
    let realized := close_qty * (f.price - acc.avg_cost) * sign
    let new_qty := acc.current_qty + signed_qty
    let avg_cost :=
      if new_qty = 0 then 0
      else if new_qty * sign < 0 then f.price
      else acc.avg_cost
    { current_qty := new_qty, avg_cost := avg_cost,
      realized_list := acc.realized_list ++ [realized - f.commission - f.slippage],
      total_commission := total_commission, total_slippage := total_slippage,
      gross_notional := gross_notional }

/-- compute_trade_stats from metrics.py, lines 94-158: run the fill loop, then
aggregate wins, losses, win rate, averages, turnover and P&L totals; the
num_trades count keeps only fills whose net realized P&L is non-zero. -/
def computeTradeStats (fills : List Fill) (initial_cash : ℚ) :
    TradeStats × List ℚ :=
  let acc := fills.foldl tradeStep
    { current_qty := 0, avg_cost := 0, realized_list := [],
      total_commission := 0, total_slippage := 0, gross_notional := 0 }
  let realized_list := acc.realized_list
  let wins := realized_list.filter (fun r => r > 0)
  let losses := realized_list.filter (fun r => r < 0)
  let num_trades := (realized_list.filter (fun r => r ≠ 0)).length
  let win_rate := if num_trades > 0 then (wins.length : ℚ) / (num_trades : ℚ) else 0
  let avg_win := if wins.length > 0 then wins.sum / (wins.length : ℚ) else 0
  let avg_loss := if losses.length > 0 then losses.sum / (losses.length : ℚ) else 0
  let turnover := if initial_cash > 0 then acc.gross_notional / initial_cash else 0
  ({ total_pnl := realized_list.sum + acc.total_commission + acc.total_slippage,
     total_commission := acc.total_commission,
     total_slippage := acc.total_slippage,
     net_pnl := realized_list.sum,
     win_rate := win_rate, avg_win := avg_win, avg_loss := avg_loss,
     num_trades := num_trades, turnover := turnover },
   realized_list)

/-- Abstract transcendental and calendar kernels delegated by the Python code
to scipy.stats.norm, math.log, math.exp, math.sqrt and datetime: cdf and pdf
of the standard normal, natural log, exponential, square root, and the
day count (expiry_dt - current_dt).days of time_to_expiry_years. -/
structure RealFns where
  cdf : ℚ → ℚ
  pdf : ℚ → ℚ
  logF : ℚ → ℚ
  expF : ℚ → ℚ
  sqrtF : ℚ → ℚ
  daysBetween : Int → String → ℚ

/-- time_to_expiry_years from options_pricing.py, lines 134-149:
max(0, days_to_expiry / 365). -/
def timeToExpiryYears (R : RealFns) (current_timestamp : Int)
    (expiry : String) : ℚ :=
  max 0 (R.daysBetween current_timestamp expiry / 365)

/-- Greeks record returned by black_scholes_greeks. -/
structure Greeks where
  delta : ℚ
  gamma : ℚ
  theta : ℚ
  vega : ℚ
  deriving DecidableEq

/-- black_scholes_price from options_pricing.py, lines 11-54: intrinsic value
at or past expiry, 0 on degenerate volatility/spot/strike, otherwise the
closed-form price clamped at 0. -/
def blackScholesPrice (R : RealFns) (option_type : String)
    (spot_price strike time_to_expiry volatility risk_free_rate : ℚ) : ℚ :=
  if time_to_expiry ≤ 0 then
    if option_type = "call" then max 0 (spot_price - strike)
    else max 0 (strike - spot_price)
  else if volatility ≤ 0 ∨ spot_price ≤ 0 ∨ strike ≤ 0 then 0
  else
    let d1 := (R.logF (spot_price / strike) +
        (risk_free_rate + 0.5 * volatility ^ 2) * time_to_expiry) /
        (volatility * R.sqrtF time_to_expiry)
    let d2 := d1 - volatility * R.sqrtF time_to_expiry
    if option_type = "call" then
      max 0 (spot_price * R.cdf d1 -
        strike * R.expF (-risk_free_rate * time_to_expiry) * R.cdf d2)
    else
      max 0 (strike * R.expF (-risk_free_rate * time_to_expiry) * R.cdf (-d2) -
        spot_price * R.cdf (-d1))

/-- black_scholes_greeks from options_pricing.py, lines 57-105: all zero at or
past expiry or on degenerate inputs, otherwise the closed-form sensitivities. -/
def blackScholesGreeks (R : RealFns) (option_type : String)
    (spot_price strike time_to_expiry volatility risk_free_rate : ℚ) : Greeks :=
  if time_to_expiry ≤ 0 ∨ volatility ≤ 0 ∨ spot_price ≤ 0 ∨ strike ≤ 0 then
    { delta := 0, gamma := 0, theta := 0, vega := 0 }
  else
    let d1 := (R.logF (spot_price / strike) +
        (risk_free_rate + 0.5 * volatility ^ 2) * time_to_expiry) /
        (volatility * R.sqrtF time_to_expiry)
    let d2 := d1 - volatility * R.sqrtF time_to_expiry
    let delta := if option_type = "call" then R.cdf d1 else R.cdf d1 - 1
    let gamma := R.pdf d1 / (spot_price * volatility * R.sqrtF time_to_expiry)
    let term1 := -(spot_price * R.pdf d1 * volatility) / (2 * R.sqrtF time_to_expiry)
    let theta :=
      if option_type = "call" then
        (term1 + -risk_free_rate * strike *
          R.expF (-risk_free_rate * time_to_expiry) * R.cdf d2) / 365
      else
        (term1 + risk_free_rate * strike *
          R.expF (-risk_free_rate * time_to_expiry) * R.cdf (-d2)) / 365
    let vega := spot_price * R.pdf d1 * R.sqrtF time_to_expiry / 100
    { delta := delta, gamma := gamma, theta := theta, vega := vega }

/-- simple_payoff from options_pricing.py, lines 108-131. -/
def simplePayoff (option_type : String)
    (spot_price strike premium_paid : ℚ) : ℚ :=
  (if option_type = "call" then max 0 (spot_price - strike)
   else max 0 (strike - spot_price)) - premium_paid

/-- Option trade record from annotations.py (class TradeAnnotation); the
fields note, tags, source_url and created_at play no role in simulation and
are omitted. -/
structure TradeAnn where
  id : String
  timestamp : Int
  type : String
  action : String
  strike : ℚ
  expiry : String
  contracts : Int := 1
  premium : Option ℚ := none
  deriving DecidableEq

/-- Pricing settings from annotations.py (class OptionSettings). -/
structure OptionSettings where
  implied_volatility : ℚ := 3 / 10
  risk_free_rate : ℚ := 5 / 100
  use_black_scholes : Bool := true
  scenario : String := "base"
  scenario_move_pct : ℚ := 1 / 10
  commission_per_contract : ℚ := 65 / 100
  deriving DecidableEq

/-- Result of simulating one trade, from annotations.py (class SimulatedTrade). -/
structure SimulatedTrade where
  annotation_id : String
  entry_timestamp : Int
  entry_price : ℚ
  option_premium_paid : ℚ
  exit_timestamp : Option Int := none
  exit_price : Option ℚ := none
  option_premium_received : Option ℚ := none
  payoff : ℚ
  status : String := "open"
  delta : Option ℚ := none
  gamma : Option ℚ := none
  theta : Option ℚ := none
  vega : Option ℚ := none
  deriving DecidableEq

/-- Aggregate statistics from annotations.py (class ManualBacktestStats). -/
structure ManualBacktestStats where
  total_premium_spent : ℚ
  total_premium_received : ℚ
  net_premium : ℚ
  max_payoff : ℚ
  min_payoff : ℚ
  net_pnl : ℚ
  win_rate : ℚ
  num_trades : ℕ
  num_winners : ℕ
  num_losers : ℕ
  avg_win : ℚ
  avg_loss : ℚ
  max_win : ℚ
  max_loss : ℚ
  return_on_capital : ℚ
  deriving DecidableEq

/-- Manual simulator state, from manual_simulator.py (class ManualSimulator).
The anns field is the annotation list already sorted by timestamp, as built
in __init__. -/
structure ManualSimulator where
  anns : List TradeAnn
  timestamps : List Int
  price_series : List ℚ
  settings : OptionSettings

/-- ManualSimulator._apply_scenario from manual_simulator.py, lines 51-60. -/
def applyScenario (st : OptionSettings) (prices : List ℚ) : List ℚ :=
  if st.scenario = "base" then prices
  else
    let adjustment := if st.scenario = "bear" then 1 - st.scenario_move_pct
      else 1 + st.scenario_move_pct
    prices.map (fun p => p * adjustment)

/-- Index-carrying loop of _find_price_at_timestamp; list indexing into the
adjusted prices is fallible, modelling a Python IndexError. -/
def findPriceAtAux (adjusted : List ℚ) (target : Int) :
    ℕ → List Int → Except String (Option (ℕ × ℚ))
  | _, [] => Except.ok none
  | i, t :: rest =>
      if t ≥ target then
        match adjusted[i]? with
        | some p => Except.ok (some (i, p))
        | none => Except.error "IndexError"
      else findPriceAtAux adjusted target (i + 1) rest

/-- ManualSimulator._find_price_at_timestamp from manual_simulator.py, lines
62-67: the first index whose timestamp is at or after the target, with the
adjusted price there; none when no timestamp qualifies. -/
def findPriceAtTimestamp (timestamps : List Int) (adjusted : List ℚ)
    (target : Int) : Except String (Option (ℕ × ℚ)) :=
  findPriceAtAux adjusted target 0 timestamps

/-- ManualSimulator._price_option from manual_simulator.py, lines 69-108:
Black-Scholes premium and Greeks when enabled and before expiry, otherwise
intrinsic value with all-zero Greeks. -/
def priceOption (R : RealFns) (st : OptionSettings) (a : TradeAnn)
    (current_ts : Int) (spot : ℚ) : ℚ × Greeks :=
  let t := timeToExpiryYears R current_ts a.expiry
  if st.use_black_scholes = true ∧ 0 < t then
    (blackScholesPrice R a.type spot a.strike t st.implied_volatility st.risk_free_rate,
     blackScholesGreeks R a.type spot a.strike t st.implied_volatility st.risk_free_rate)
  else
    ((if a.type = "call" then max 0 (spot - a.strike) else max 0 (a.strike - spot)),
     { delta := 0, gamma := 0, theta := 0, vega := 0 })

/-- Exit-index search of simulate, manual_simulator.py lines 153-159: the
first index at or after the entry whose time to expiry is zero, defaulting to
the last index of the series. -/
def findExitIdx (R : RealFns) (expiry : String) (timestamps : List Int)
    (entry_idx : ℕ) : ℕ :=
  ((List.range' entry_idx (timestamps.length - entry_idx)).find?
      (fun i => decide (timeToExpiryYears R (timestamps.getD i 0) expiry ≤ 0))).getD
    (timestamps.length - 1)

/-- Accumulator of the simulate loop: the trades list and the three running
premium/commission totals of manual_simulator.py lines 117-120. -/
structure SimAcc where
  trades : List SimulatedTrade
  total_premium_spent : ℚ
  total_premium_received : ℚ
  total_commission : ℚ
  deriving DecidableEq

/-- One iteration of the annotation loop of ManualSimulator.simulate,
manual_simulator.py lines 122-194: skip the annotation when no series
timestamp is at or after it, otherwise price entry and exit, update the
premium totals and append the SimulatedTrade. -/
def simStep (R : RealFns) (st : OptionSettings) (timestamps : List Int)
    (adjusted : List ℚ) (acc : SimAcc) (a : TradeAnn) : Except String SimAcc :=
  match findPriceAtTimestamp timestamps adjusted a.timestamp with
  | Except.error e => Except.error e
  | Except.ok none => Except.ok acc
  | Except.ok (some (entry_idx, entry_spot)) =>
      match timestamps[entry_idx]? with
      | none => Except.error "IndexError"
      | some entry_ts =>
          let priced := priceOption R st a entry_ts entry_spot
          let entry_premium := a.premium.getD priced.1
          let entry_greeks := priced.2
          let total_cost := entry_premium * (a.contracts : ℚ) * 100
          let commission := st.commission_per_contract * (a.contracts : ℚ)
          let spent := if a.action = "buy" then acc.total_premium_spent + total_cost
            else acc.total_premium_spent
          let received := if a.action = "buy" then acc.total_premium_received
            else acc.total_premium_received + total_cost
          let total_comm := acc.total_commission + commission
          let exit_idx := findExitIdx R a.expiry timestamps entry_idx
          match adjusted[exit_idx]?, timestamps[exit_idx]? with
          | some exit_spot, some exit_ts =>
              let exit_premium := (priceOption R st a exit_ts exit_spot).1
              let payoff := (if a.action = "buy" then exit_premium - entry_premium
                  else entry_premium - exit_premium) * (a.contracts : ℚ) * 100 - commission
              let status := if timeToExpiryYears R exit_ts a.expiry ≤ 0 then "expired"
                else "closed"
              let trade : SimulatedTrade :=
                { annotation_id := a.id, entry_timestamp := entry_ts,
                  entry_price := entry_spot,
                  option_premium_paid := if a.action = "buy" then entry_premium else 0,
                  exit_timestamp := some exit_ts, exit_price := some exit_spot,
                  option_premium_received := some (if a.action = "buy" then exit_premium else 0),
                  payoff := payoff, status := status,
                  delta := some entry_greeks.delta, gamma := some entry_greeks.gamma,
                  theta := some entry_greeks.theta, vega := some entry_greeks.vega }
              Except.ok
                { trades := acc.trades ++ [trade], total_premium_spent := spent,
                  total_premium_received := received, total_commission := total_comm }
          | _, _ => Except.error "IndexError"

/-- The annotation loop of ManualSimulator.simulate, run left to right; an
error aborts the whole run. -/
def simulateLoop (R : RealFns) (st : OptionSettings) (timestamps : List Int)
    (adjusted : List ℚ) : List TradeAnn → SimAcc → Except String SimAcc
  | [], acc => Except.ok acc
  | a :: rest, acc =>
      match simStep R st timestamps adjusted acc a with
      | Except.error e => Except.error e
      | Except.ok acc2 => simulateLoop R st timestamps adjusted rest acc2

/-- ManualSimulator._calculate_stats from manual_simulator.py, lines 206-256. -/
def calculateStats (trades : List SimulatedTrade)
    (total_premium_spent total_premium_received total_commission : ℚ) :
    ManualBacktestStats :=
  if trades.length = 0 then
    { total_premium_spent := 0, total_premium_received := 0, net_premium := 0,
      max_payoff := 0, min_payoff := 0, net_pnl := 0, win_rate := 0,
      num_trades := 0, num_winners := 0, num_losers := 0, avg_win := 0,
      avg_loss := 0, max_win := 0, max_loss := 0, return_on_capital := 0 }
  else
    let payoffs := trades.map (fun t => t.payoff)
    let winners := payoffs.filter (fun p => p > 0)
    let losers := payoffs.filter (fun p => p < 0)
    let net_pnl := payoffs.sum
    { total_premium_spent := total_premium_spent,
      total_premium_received := total_premium_received,
      net_premium := total_premium_received - total_premium_spent,
      max_payoff := match payoffs with | [] => 0 | p :: ps => ps.foldl max p,
      min_payoff := match payoffs with | [] => 0 | p :: ps => ps.foldl min p,
      net_pnl := net_pnl,
      win_rate := if trades.length > 0 then (winners.length : ℚ) / (trades.length : ℚ) else 0,
      num_trades := trades.length,
      num_winners := winners.length,
      num_losers := losers.length,
      avg_win := if winners.length > 0 then winners.sum / (winners.length : ℚ) else 0,
      avg_loss := if losers.length > 0 then losers.sum / (losers.length : ℚ) else 0,
      max_win := match winners with | [] => 0 | p :: ps => ps.foldl max p,
      max_loss := match losers with | [] => 0 | p :: ps => ps.foldl min p,
      return_on_capital := if total_premium_spent > 0 then net_pnl / total_premium_spent
        else 0 }

/-- ManualSimulator.simulate from manual_simulator.py, lines 110-204: run the
annotation loop over the scenario-adjusted prices and aggregate the
statistics. -/
def ManualSimulator.simulate (R : RealFns) (sim : ManualSimulator) :
    Except String (List SimulatedTrade × ManualBacktestStats) :=
  let adjusted := applyScenario sim.settings sim.price_series
  match simulateLoop R sim.settings sim.timestamps adjusted sim.anns
      { trades := [], total_premium_spent := 0, total_premium_received := 0,
        total_commission := 0 } with
  | Except.error e => Except.error e
  | Except.ok acc =>
      Except.ok (acc.trades,
        calculateStats acc.trades acc.total_premium_spent
          acc.total_premium_received acc.total_commission)

/-
Theorems about the claims.
-/

/-- Constructor disequality used to discharge side tests in evaluations. -/
theorem sell_ne_buy : Side.SELL ≠ Side.BUY := by decide

/-- Constructor disequality used to discharge side tests in evaluations. -/
theorem buy_ne_sell : Side.BUY ≠ Side.SELL := by decide

/-- C1: BacktestEngine.run (backtest.py lines 45-50) constructs the broker by
passing the keyword argument slippage_bps, but SimpleBroker.__init__
(broker.py line 56) declares no such parameter, so the keyword call fails
(Python raises TypeError) for every configuration, including
slippage_bps = 0: the per-bar loop is never reached and no BacktestResult is
returned. -/
theorem c1_run_broker_construction_fails :
    pythonKwCallOk simpleBrokerInitParams simpleBrokerInitRequired
      backtestRunBrokerKwargs = false := by
  decide

/-- Broker holding one open STOP buy order at stop price 105, the scenario of
the repository's test test_stop_order_triggers_and_fills (constructed here
without the slippage_bps argument, which the source constructor lacks). -/
def c2Broker : SimpleBroker :=
  ((SimpleBroker.init 100000 "AAPL" 1).buy "AAPL" 10 OrderType.STOP none (some 105)).1

/-- Bar whose high (106) exceeds the stop price 105, so the claim expects a
fill at the close 106. -/
def c2Bar : Bar :=
  { timestamp := 1, symbol := "AAPL", opn := 100, high := 106, low := 99,
    close := 106, volume := 1000000 }

/-- C2: the matching step of SimpleBroker.on_bar handles only MARKET and
LIMIT orders (broker.py lines 190-201); on a bar with high 106 ≥ stop 105 an
open STOP buy produces no fill and the order stays NEW, contradicting the
claim that it fills at the bar close. -/
theorem c2_stop_order_produces_no_fill :
    c2Bar.high ≥ 105 ∧
    (c2Broker.on_bar c2Bar).2 = [] ∧
    (c2Broker.on_bar c2Bar).1.orders.map Order.status = [OrderStatus.NEW] := by
  decide

/-- Transcendental kernels instantiated with placeholder functions, for
concrete evaluation of branches that never reach them. -/
def qIdFns : RealFns :=
  { cdf := id, pdf := id, logF := id, expF := id, sqrtF := id,
    daysBetween := fun _ _ => 0 }

/-- C6 counterexample: at time_to_expiry = 0 with volatility 0 (a degenerate
input), black_scholes_price takes the expiry branch first (options_pricing.py
line 33) and returns the intrinsic value 50, not 0, for spot 100 and
strike 50. -/
theorem c6_counterexample :
    blackScholesPrice qIdFns "call" 100 50 0 0 (1 / 20) ≠ 0 := by
  rw [blackScholesPrice, if_pos (le_refl (0 : ℚ)), if_pos rfl]
  norm_num

/-- C6 (amended): on degenerate inputs (volatility ≤ 0 or spot ≤ 0 or
strike ≤ 0), black_scholes_greeks returns all-zero Greeks for every
time-to-expiry, and black_scholes_price returns 0 whenever time-to-expiry is
positive; when time-to-expiry ≤ 0 the price is instead the intrinsic value.
Neither function can fail on such inputs: the guarded branches are taken
before any transcendental computation. -/
theorem c6_degenerate_inputs (R : RealFns) (ot : String) (s k t v r : ℚ)
    (hdeg : v ≤ 0 ∨ s ≤ 0 ∨ k ≤ 0) :
    (0 < t → blackScholesPrice R ot s k t v r = 0) ∧
    blackScholesGreeks R ot s k t v r = { delta := 0, gamma := 0, theta := 0, vega := 0 } ∧
    (t ≤ 0 → blackScholesPrice R ot s k t v r =
      (if ot = "call" then max 0 (s - k) else max 0 (k - s))) := by
  refine ⟨fun ht => ?_, ?_, fun ht => ?_⟩
  · rw [blackScholesPrice, if_neg (not_le.mpr ht), if_pos hdeg]
  · rw [blackScholesGreeks, if_pos (Or.inr hdeg)]
  · rw [blackScholesPrice, if_pos ht]

/-- C6 witness: the amended theorem instantiated at volatility 0, spot 100,
strike 50, rate 1/20. -/
theorem c6_witness :
    ((0 : ℚ) ≤ 0 ∨ (100 : ℚ) ≤ 0 ∨ (50 : ℚ) ≤ 0) ∧
    ((0 < (1 : ℚ) → blackScholesPrice qIdFns "call" 100 50 1 0 (1 / 20) = 0) ∧
      blackScholesGreeks qIdFns "call" 100 50 1 0 (1 / 20) =
        { delta := 0, gamma := 0, theta := 0, vega := 0 } ∧
      ((1 : ℚ) ≤ 0 → blackScholesPrice qIdFns "call" 100 50 1 0 (1 / 20) =
        (if "call" = "call" then max 0 ((100 : ℚ) - 50) else max 0 ((50 : ℚ) - 100)))) :=
  ⟨Or.inl le_rfl, c6_degenerate_inputs qIdFns "call" 100 50 1 0 (1 / 20) (Or.inl le_rfl)⟩

/-- C10: SimpleBroker.get_history returns the whole recorded history whenever
lookback ≤ 0; for lookback > 0 it returns exactly the last
min(lookback, n) recorded values (the reverse of the first lookback values of
the reversed history, of length min lookback n); it is total, and an unknown
symbol yields the empty list for every lookback. -/
theorem c10_get_history (b : SimpleBroker) (symbol fld : String) (lookback : Int) :
    (lookback ≤ 0 → b.get_history symbol fld lookback =
      (assocFind ((assocFind b.price_history symbol).getD []) fld).getD []) ∧
    (0 < lookback →
      b.get_history symbol fld lookback =
        ((((assocFind ((assocFind b.price_history symbol).getD []) fld).getD
          []).reverse.take lookback.toNat).reverse) ∧
      (b.get_history symbol fld lookback).length =
        min lookback.toNat
          ((assocFind ((assocFind b.price_history symbol).getD []) fld).getD []).length) ∧
    (assocFind b.price_history symbol = none →
      b.get_history symbol fld lookback = []) := by
  refine ⟨fun h => ?_, fun h => ⟨?_, ?_⟩, fun h => ?_⟩
  · rw [SimpleBroker.get_history, if_pos h]
  · rw [SimpleBroker.get_history, if_neg (not_le.mpr h)]
    exact List.rtake_eq_reverse_take_reverse _ _
  · rw [SimpleBroker.get_history, if_neg (not_le.mpr h), List.length_drop]
    omega
  · rw [SimpleBroker.get_history, h]
    show (if lookback ≤ 0 then ([] : List ℚ)
      else List.drop (List.length ([] : List ℚ) - lookback.toNat) []) = []
    rw [List.drop_nil, ite_self]

/-- C10 witness: get_history on the broker of the STOP scenario after one
bar, with lookback 0, a positive lookback and an unknown symbol. -/
theorem c10_witness :
    ((0 : Int) ≤ 0 →
      (c2Broker.on_bar c2Bar).1.get_history "AAPL" "close" 0 =
        (assocFind ((assocFind (c2Broker.on_bar c2Bar).1.price_history "AAPL").getD [])
          "close").getD []) ∧
    ((0 : Int) < 3 →
      (c2Broker.on_bar c2Bar).1.get_history "AAPL" "close" 3 =
        ((((assocFind ((assocFind (c2Broker.on_bar c2Bar).1.price_history "AAPL").getD [])
          "close").getD []).reverse.take (Int.toNat 3)).reverse) ∧
      ((c2Broker.on_bar c2Bar).1.get_history "AAPL" "close" 3).length =
        min (Int.toNat 3)
          (((assocFind ((assocFind (c2Broker.on_bar c2Bar).1.price_history "AAPL").getD [])
            "close").getD []).length)) ∧
    (assocFind (c2Broker.on_bar c2Bar).1.price_history "ZZZ" = none →
      (c2Broker.on_bar c2Bar).1.get_history "ZZZ" "close" 3 = []) :=
  ⟨((c10_get_history (c2Broker.on_bar c2Bar).1 "AAPL" "close" 0).1),
   ((c10_get_history (c2Broker.on_bar c2Bar).1 "AAPL" "close" 3).2.1),
   ((c10_get_history (c2Broker.on_bar c2Bar).1 "ZZZ" "close" 3).2.2)⟩

/-- Updating one key of an association list leaves every other key's lookup
unchanged. -/
theorem assocFind_assocSet_ne {α : Type} (l : List (String × α)) (key k : String)
    (a : α) (h : k ≠ key) : assocFind (assocSet l key a) k = assocFind l k := by
  induction l with
  | nil => rfl
  | cons kv rest ih =>
      by_cases hk : kv.1 = key
      · simp only [assocSet, hk, beq_self_eq_true, if_pos]
        simp only [assocFind, List.find?]
        have : (key == k) = false := by
          simp [beq_eq_false_iff_ne]
          exact fun hkk => h hkk.symm
        simp [this, hk]
      · simp only [assocSet, beq_iff_eq, hk, if_neg, ite_false]
        simp only [assocFind, List.find?] at ih ⊢
        by_cases hck : kv.1 = k
        · simp [hck]
        · have h1 : (kv.1 == k) = false := by simp [beq_eq_false_iff_ne, hck]
          simp [h1]
          exact ih

/-- Appending a fresh single binding leaves every other key's lookup
unchanged. -/
theorem assocFind_append_single_ne {α : Type} (l : List (String × α))
    (sym k : String) (a : α) (h : k ≠ sym) :
    assocFind (l ++ [(sym, a)]) k = assocFind l k := by
  have h1 : ¬ (sym = k) := fun hkk => h hkk.symm
  have h2 : (sym == k) = false := by simp [h1]
  simp [assocFind, List.find?_append, List.find?, h2]

/-- C8: applying a fill to the Portfolio changes cash by exactly
-(price·qty + commission + slippage) on a BUY and by exactly
price·qty - commission - slippage on a SELL, leaves the equity field
untouched, and leaves the position entry of every other symbol untouched. -/
theorem c8_portfolio_apply_fill (pf : Portfolio) (f : Fill) :
    (f.side = Side.BUY →
      (pf.apply_fill f).cash = pf.cash - (f.price * f.qty + f.commission + f.slippage)) ∧
    (f.side = Side.SELL →
      (pf.apply_fill f).cash = pf.cash + f.price * f.qty - f.commission - f.slippage) ∧
    (pf.apply_fill f).equity = pf.equity ∧
    (∀ s, s ≠ f.symbol →
      assocFind (pf.apply_fill f).positions s = assocFind pf.positions s) := by
  refine ⟨fun hb => ?_, fun hs => ?_, rfl, fun s hne => ?_⟩
  · rw [Portfolio.apply_fill]
    have : (if f.side = Side.SELL then (1 : ℚ) else -1) = -1 := by
      rw [if_neg]
      rw [hb]
      intro hc
      exact Side.noConfusion hc
    rw [this]
    ring
  · rw [Portfolio.apply_fill]
    rw [if_pos hs]
    ring
  · show assocFind (assocSet _ f.symbol _) s = assocFind pf.positions s
    rw [assocFind_assocSet_ne _ _ _ _ hne]
    by_cases hmem : (assocFind pf.positions f.symbol).isNone
    · rw [if_pos hmem]
      exact assocFind_append_single_ne _ _ _ _ hne
    · rw [if_neg hmem]

/-- Concrete portfolio used by the C8 witness. -/
def c8Portfolio : Portfolio :=
  { cash := 1000, positions := [("AAPL", { symbol := "AAPL", qty := 2, avg_price := 50 })],
    equity := 1100 }

/-- Concrete BUY fill used by the C8 witness. -/
def c8BuyFill : Fill :=
  { order_id := 1, timestamp := 1, symbol := "AAPL", side := Side.BUY,
    qty := 3, price := 60, commission := 1, slippage := 2 }

/-- C8 witness: the theorem instantiated at a concrete portfolio and BUY
fill. -/
theorem c8_witness :
    (c8BuyFill.side = Side.BUY →
      (c8Portfolio.apply_fill c8BuyFill).cash =
        c8Portfolio.cash - (c8BuyFill.price * c8BuyFill.qty +
          c8BuyFill.commission + c8BuyFill.slippage)) ∧
    (c8BuyFill.side = Side.SELL →
      (c8Portfolio.apply_fill c8BuyFill).cash =
        c8Portfolio.cash + c8BuyFill.price * c8BuyFill.qty -
          c8BuyFill.commission - c8BuyFill.slippage) ∧
    (c8Portfolio.apply_fill c8BuyFill).equity = c8Portfolio.equity ∧
    (∀ s, s ≠ c8BuyFill.symbol →
      assocFind (c8Portfolio.apply_fill c8BuyFill).positions s =
        assocFind c8Portfolio.positions s) :=
  c8_portfolio_apply_fill c8Portfolio c8BuyFill

/-- Every fill collected by the matching loop after processing any list of
orders carries the flat commission and zero slippage, provided the fills
already collected do. -/
theorem onBarStep_fills_fees (c : ℚ) (bar : Bar) :
    ∀ (orders : List Order) (acc : List Order × List Fill × Portfolio),
      (∀ g ∈ acc.2.1, g.commission = c ∧ g.slippage = 0) →
      ∀ g ∈ (orders.foldl (onBarStep c bar) acc).2.1,
        g.commission = c ∧ g.slippage = 0 := by
  intro orders
  induction orders with
  | nil =>
      intro acc h g hg
      rw [List.foldl_nil] at hg
      exact h g hg
  | cons o os ih =>
      intro acc h g hg
      rw [List.foldl_cons] at hg
      refine ih (onBarStep c bar acc o) ?_ g hg
      intro g' hg'
      simp only [onBarStep] at hg'
      by_cases hst : o.status = OrderStatus.NEW ∨ o.status = OrderStatus.PARTIALLY_FILLED
      · rw [if_pos hst] at hg'
        cases hfp : fillPrice bar o with
        | none =>
            rw [hfp] at hg'
            exact h g' hg'
        | some px =>
            rw [hfp] at hg'
            rcases List.mem_append.mp hg' with h1 | h2
            · exact h g' h1
            · rw [List.mem_singleton.mp h2]
              exact ⟨rfl, rfl⟩
      · rw [if_neg hst] at hg'
        exact h g' hg'

/-- C3: every fill produced by SimpleBroker.on_bar carries commission equal to
the broker's flat commission_per_trade and slippage equal to 0 (the fill is
built with slippage 0.0 at broker.py line 212; the broker has no slippage_bps
parameter, so the claimed price·qty·(slippage_bps/10000) slippage, asserted
by the repository's own test for 10 bps, is never charged). -/
theorem c3_fill_fees (b : SimpleBroker) (bar : Bar) (f : Fill)
    (hf : f ∈ (b.on_bar bar).2) :
    f.commission = b.commission_per_trade ∧ f.slippage = 0 := by
  refine onBarStep_fills_fees b.commission_per_trade bar b.orders
    ([], [], b.portfolio) ?_ f hf
  intro g hg
  exact absurd hg (List.not_mem_nil g)

/-- Broker holding one open MARKET buy order, with commission 3/2. -/
def c3Broker : SimpleBroker :=
  ((SimpleBroker.init 100000 "AAPL" (3 / 2)).buy "AAPL" 10 OrderType.MARKET none none).1

/-- The unique fill produced by c3Broker on the c2 bar. -/
def c3Fill : Fill :=
  { order_id := 1, timestamp := 1, symbol := "AAPL", side := Side.BUY,
    qty := 10, price := 106, commission := 3 / 2, slippage := 0 }

/-- C3 witness: the theorem applied to the concrete MARKET fill. -/
theorem c3_witness :
    c3Fill ∈ (c3Broker.on_bar c2Bar).2 ∧
    (c3Fill.commission = c3Broker.commission_per_trade ∧ c3Fill.slippage = 0) := by
  have h : (c3Broker.on_bar c2Bar).2 = [c3Fill] := by
    norm_num [c3Broker, c2Bar, c3Fill, SimpleBroker.on_bar, SimpleBroker.init,
      SimpleBroker.buy, SimpleBroker.submit_order, onBarStep, fillPrice,
      updateHistory, assocFind, assocSet, Portfolio.apply_fill,
      Position.apply_fill, Portfolio.update_equity, signedQty]
  have hm : c3Fill ∈ (c3Broker.on_bar c2Bar).2 := by
    rw [h]
    exact List.mem_singleton_self c3Fill
  exact ⟨hm, c3_fill_fees c3Broker c2Bar c3Fill hm⟩

/-- Round-trip fill pair: BUY Q at P then SELL Q at P, both with zero
commission and zero slippage. -/
def roundTripFills (Q P : ℚ) : List Fill :=
  [{ order_id := 1, timestamp := 1, symbol := "RT", side := Side.BUY, qty := Q, price := P },
   { order_id := 2, timestamp := 2, symbol := "RT", side := Side.SELL, qty := Q, price := P }]

/-- C4 counterexample: for Q = 1, P = 100 the flat round trip realizes
exactly zero P&L on the closing fill, and num_trades counts only fills with
non-zero realized P&L (metrics.py line 138), so num_trades = 0, not 1. -/
theorem c4_counterexample :
    ¬ ((computeTradeStats (roundTripFills 1 100) 100000).1.net_pnl = 0 ∧
       (computeTradeStats (roundTripFills 1 100) 100000).1.num_trades = 1) := by
  intro hcl
  have h : (computeTradeStats (roundTripFills 1 100) 100000).1.num_trades = 0 := by
    norm_num [computeTradeStats, roundTripFills, tradeStep, signedQty, sell_ne_buy]
  rw [h] at hcl
  exact Nat.zero_ne_one hcl.2

/-- C4 (amended): for every Q > 0 and P > 0, the round trip BUY Q at P then
SELL Q at P with zero fees yields net_pnl = 0 and num_trades = 0 (the
closing fill realizes exactly zero P&L and is therefore not counted as a
trade by metrics.py line 138). -/
theorem c4_round_trip (Q P cash : ℚ) (hQ : 0 < Q) (hP : 0 < P) :
    (computeTradeStats (roundTripFills Q P) cash).1.net_pnl = 0 ∧
    (computeTradeStats (roundTripFills Q P) cash).1.num_trades = 0 := by
  have hQ0 : Q ≠ 0 := ne_of_gt hQ
  have hm : ¬ (0 < Q * -Q) := by nlinarith
  have habs : |(-Q)| = Q := by rw [abs_neg, abs_of_pos hQ]
  have habs2 : |Q| = Q := abs_of_pos hQ
  constructor <;>
    norm_num [computeTradeStats, roundTripFills, tradeStep, signedQty,
      sell_ne_buy, hQ0, hm, hQ, habs, habs2]

/-- C4 witness: the amended theorem at Q = 1, P = 100. -/
theorem c4_witness :
    (0 : ℚ) < 1 ∧ (0 : ℚ) < 100 ∧
    ((computeTradeStats (roundTripFills 1 100) 1000).1.net_pnl = 0 ∧
     (computeTradeStats (roundTripFills 1 100) 1000).1.num_trades = 0) :=
  ⟨by norm_num, by norm_num, c4_round_trip 1 100 1000 (by norm_num) (by norm_num)⟩

/-- One Position.apply_fill always moves the signed quantity by exactly the
fill's signed quantity, whatever branch is taken. -/
theorem apply_fill_qty_step (p : Position) (f : Fill) :
    (p.apply_fill f).qty = p.qty + signedQty f := by
  simp only [Position.apply_fill]
  split_ifs with h0 h1 h2 h3
  · show signedQty f = p.qty + signedQty f
    rw [h0, zero_add]
  · rfl
  · rfl
  · show (0 : ℚ) = p.qty + signedQty f
    exact h3.symm
  · rfl

/-- Folding fills into a position adds the sum of the signed fill
quantities to its quantity. -/
theorem applyFills_qty (fills : List Fill) :
    ∀ p : Position, (applyFills p fills).qty = p.qty + (fills.map signedQty).sum := by
  induction fills with
  | nil =>
      intro p
      simp [applyFills]
  | cons f fs ih =>
      intro p
      have hstep := ih (p.apply_fill f)
      rw [applyFills, List.foldl_cons]
      rw [applyFills] at hstep
      rw [hstep, apply_fill_qty_step]
      rw [List.map_cons, List.sum_cons]
      ring

/-- C7: Position.apply_fill keeps the signed quantity equal to the running
sum of signed fill quantities (from a fresh position the final quantity is
exactly that sum); a same-side addition recomputes avg_price as the
quantity-weighted average; a partial reduction leaves avg_price unchanged;
a fill bringing the quantity of a non-flat position exactly to zero resets
avg_price to 0; and a fill that flips the side sets avg_price to the fill's
price. -/
theorem c7_position_invariants :
    (∀ (sym : String) (fills : List Fill),
      (applyFills { symbol := sym } fills).qty = (fills.map signedQty).sum) ∧
    (∀ (p : Position) (f : Fill), 0 < p.qty * signedQty f →
      (p.apply_fill f).qty = p.qty + signedQty f ∧
      (p.apply_fill f).avg_price =
        (p.avg_price * |p.qty| + f.price * |signedQty f|) / |p.qty + signedQty f|) ∧
    (∀ (p : Position) (f : Fill), p.qty ≠ 0 → p.qty * signedQty f ≤ 0 →
      0 < p.qty * (p.qty + signedQty f) →
      (p.apply_fill f).qty = p.qty + signedQty f ∧
      (p.apply_fill f).avg_price = p.avg_price) ∧
    (∀ (p : Position) (f : Fill), p.qty ≠ 0 → p.qty + signedQty f = 0 →
      (p.apply_fill f).qty = 0 ∧ (p.apply_fill f).avg_price = 0) ∧
    (∀ (p : Position) (f : Fill), p.qty * (p.qty + signedQty f) < 0 →
      (p.apply_fill f).qty = p.qty + signedQty f ∧
      (p.apply_fill f).avg_price = f.price) := by
  refine ⟨?_, ?_, ?_, ?_, ?_⟩
  · intro sym fills
    rw [applyFills_qty]
    show (0 : ℚ) + _ = _
    rw [zero_add]
  · intro p f hss
    have h0 : p.qty ≠ 0 := by
      intro h
      rw [h, zero_mul] at hss
      exact lt_irrefl 0 hss
    simp only [Position.apply_fill]
    rw [if_neg h0, if_pos hss]
    exact ⟨rfl, rfl⟩
  · intro p f h0 hle hred
    simp only [Position.apply_fill]
    rw [if_neg h0, if_neg (not_lt.mpr hle), if_pos hred]
    exact ⟨rfl, rfl⟩
  · intro p f h0 hz
    have hsq : 0 < p.qty * p.qty := mul_self_pos.mpr h0
    have hneg : p.qty * signedQty f < 0 := by
      have hs : signedQty f = -p.qty := by linarith
      rw [hs, mul_neg]
      exact neg_lt_zero.mpr hsq
    have hz2 : ¬ (0 < p.qty * (p.qty + signedQty f)) := by
      rw [hz, mul_zero]
      exact lt_irrefl 0
    simp only [Position.apply_fill]
    rw [if_neg h0, if_neg (not_lt.mpr (le_of_lt hneg)), if_neg hz2, if_pos hz]
    exact ⟨rfl, rfl⟩
  · intro p f hfl
    have h0 : p.qty ≠ 0 := by
      intro h
      rw [h, zero_mul] at hfl
      exact lt_irrefl 0 hfl
    have hsq : 0 ≤ p.qty * p.qty := mul_self_nonneg p.qty
    have hss : ¬ (0 < p.qty * signedQty f) := by
      intro hpos
      nlinarith
    have hnz : p.qty + signedQty f ≠ 0 := by
      intro h
      rw [h, mul_zero] at hfl
      exact lt_irrefl 0 hfl
    simp only [Position.apply_fill]
    rw [if_neg h0, if_neg hss, if_neg (not_lt.mpr (le_of_lt hfl)), if_neg hnz]
    exact ⟨rfl, rfl⟩

/-- Long one share at 10, used by the C7 witness. -/
def c7PosA : Position := { symbol := "A", qty := 1, avg_price := 10 }

/-- Long two shares at 10, used by the C7 witness. -/
def c7PosB : Position := { symbol := "A", qty := 2, avg_price := 10 }

/-- BUY one at 20, used by the C7 witness. -/
def c7BuyAdd : Fill :=
  { order_id := 1, timestamp := 1, symbol := "A", side := Side.BUY, qty := 1, price := 20 }

/-- SELL one at 20, used by the C7 witness. -/
def c7Sell1 : Fill :=
  { order_id := 2, timestamp := 2, symbol := "A", side := Side.SELL, qty := 1, price := 20 }

/-- SELL two at 20, used by the C7 witness. -/
def c7Sell2 : Fill :=
  { order_id := 3, timestamp := 3, symbol := "A", side := Side.SELL, qty := 2, price := 20 }

/-- C7 witness: each conjunct of the invariant theorem applied at concrete
positions and fills (sum of signed quantities, same-side add, partial
reduction, exact close, side flip). -/
theorem c7_witness :
    ((applyFills { symbol := "A" } [c7BuyAdd, c7Sell1]).qty =
      ([c7BuyAdd, c7Sell1].map signedQty).sum) ∧
    ((c7PosA.apply_fill c7BuyAdd).qty = c7PosA.qty + signedQty c7BuyAdd ∧
      (c7PosA.apply_fill c7BuyAdd).avg_price =
        (c7PosA.avg_price * |c7PosA.qty| + c7BuyAdd.price * |signedQty c7BuyAdd|) /
          |c7PosA.qty + signedQty c7BuyAdd|) ∧
    ((c7PosB.apply_fill c7Sell1).qty = c7PosB.qty + signedQty c7Sell1 ∧
      (c7PosB.apply_fill c7Sell1).avg_price = c7PosB.avg_price) ∧
    ((c7PosA.apply_fill c7Sell1).qty = 0 ∧ (c7PosA.apply_fill c7Sell1).avg_price = 0) ∧
    ((c7PosA.apply_fill c7Sell2).qty = c7PosA.qty + signedQty c7Sell2 ∧
      (c7PosA.apply_fill c7Sell2).avg_price = c7Sell2.price) :=
  ⟨c7_position_invariants.1 "A" [c7BuyAdd, c7Sell1],
   c7_position_invariants.2.1 c7PosA c7BuyAdd
     (by norm_num [c7PosA, c7BuyAdd, signedQty]),
   c7_position_invariants.2.2.1 c7PosB c7Sell1
     (by norm_num [c7PosB]) (by norm_num [c7PosB, c7Sell1, signedQty, sell_ne_buy])
     (by norm_num [c7PosB, c7Sell1, signedQty, sell_ne_buy]),
   c7_position_invariants.2.2.2.1 c7PosA c7Sell1
     (by norm_num [c7PosA]) (by norm_num [c7PosA, c7Sell1, signedQty, sell_ne_buy]),
   c7_position_invariants.2.2.2.2 c7PosA c7Sell2
     (by norm_num [c7PosA, c7Sell2, signedQty, sell_ne_buy])⟩

/-- C5 counterexample: on the equity curve [-5, -10] (length 2) the running
maximum stays -5, so the second drawdown element is (-10 - (-5)) / (-5) = 1,
which is positive: the drawdown curve is not elementwise ≤ 0. -/
theorem c5_counterexample :
    ¬ (∀ d ∈ (computePerformance id [-5, -10]).drawdown_curve, d ≤ 0) := by
  intro hall
  have hdc : (computePerformance id [-5, -10]).drawdown_curve = [0, 1] := by
    norm_num [computePerformance, runningMax, runningMaxAux]
  have h1 : (1 : ℚ) ≤ 0 := hall 1 (by rw [hdc]; simp)
  linarith

/-- Every drawdown element over the tail of the running maximum is ≤ 0 when
the accumulator and all equity values are positive. -/
theorem zipWith_dd_aux (l : List ℚ) :
    ∀ acc : ℚ, 0 < acc → (∀ x ∈ l, 0 < x) →
      ∀ d ∈ List.zipWith (fun e m => (e - m) / m) l (runningMaxAux acc l), d ≤ 0 := by
  induction l with
  | nil =>
      intro acc _ _ d hd
      simp at hd
  | cons x xs ih =>
      intro acc hacc hl d hd
      rw [runningMaxAux, List.zipWith_cons_cons] at hd
      rcases List.mem_cons.mp hd with h | h
      · rw [h]
        have hnum : x - max acc x ≤ 0 := sub_nonpos.mpr (le_max_right acc x)
        have hden : 0 < max acc x := lt_max_iff.mpr (Or.inl hacc)
        exact div_nonpos_iff.mpr (Or.inr ⟨hnum, le_of_lt hden⟩)
      · exact ih (max acc x) (lt_max_iff.mpr (Or.inl hacc))
          (fun y hy => hl y (List.mem_cons_of_mem x hy)) d h

/-- Folding min over a list never exceeds the initial accumulator. -/
theorem foldl_min_le (l : List ℚ) : ∀ a : ℚ, l.foldl min a ≤ a := by
  induction l with
  | nil =>
      intro a
      exact le_refl a
  | cons x xs ih =>
      intro a
      rw [List.foldl_cons]
      exact le_trans (ih (min a x)) (min_le_left a x)

/-- C5 (amended): for every equity curve of length ≥ 2 with all values
positive, compute_performance yields a drawdown curve that is elementwise
≤ 0 and a max_drawdown ≤ 0, and calmar = 0 whenever max_drawdown = 0 (on
curves reaching zero or negative equity a drawdown element can instead be
positive, as the counterexample shows). -/
theorem c5_drawdown_nonpositive (sq : ℚ → ℚ) (p : ℕ) (curve : List ℚ)
    (hlen : 2 ≤ curve.length) (hpos : ∀ x ∈ curve, 0 < x) :
    (∀ d ∈ (computePerformance sq curve p).drawdown_curve, d ≤ 0) ∧
    (computePerformance sq curve p).max_drawdown ≤ 0 ∧
    ((computePerformance sq curve p).max_drawdown = 0 →
      (computePerformance sq curve p).calmar = 0) := by
  cases curve with
  | nil => simp at hlen
  | cons x xs =>
      have hnl : ¬ ((x :: xs).length < 2) := by omega
      have hx : 0 < x := hpos x (List.mem_cons_self x xs)
      have hxs : ∀ y ∈ xs, 0 < y := fun y hy => hpos y (List.mem_cons_of_mem x hy)
      have hhead : (x - x) / x = 0 := by rw [sub_self, zero_div]
      simp only [computePerformance, if_neg hnl, runningMax, List.zipWith_cons_cons]
      refine ⟨?_, ?_, ?_⟩
      · intro d hd
        rcases List.mem_cons.mp hd with h | h
        · rw [h, hhead]
        · exact zipWith_dd_aux xs x hx hxs d h
      · calc (List.zipWith (fun e m => (e - m) / m) xs (runningMaxAux x xs)).foldl
              min ((x - x) / x)
              ≤ (x - x) / x := foldl_min_le _ _
          _ = 0 := hhead
      · intro h
        rw [if_neg (fun hne => hne h)]

/-- C5 witness: the amended theorem at the constant positive curve [1, 1]. -/
theorem c5_witness :
    2 ≤ ([1, 1] : List ℚ).length ∧
    ((∀ d ∈ (computePerformance id [1, 1]).drawdown_curve, d ≤ 0) ∧
     (computePerformance id [1, 1]).max_drawdown ≤ 0 ∧
     ((computePerformance id [1, 1]).max_drawdown = 0 →
       (computePerformance id [1, 1]).calmar = 0)) :=
  ⟨by norm_num,
   c5_drawdown_nonpositive id 252 [1, 1] (by norm_num) (by norm_num)⟩

/-- The entry search finds nothing when every series timestamp is strictly
before the target. -/
theorem findPriceAtAux_none (adjusted : List ℚ) (target : Int) :
    ∀ (ts : List Int) (i : ℕ), (∀ t ∈ ts, t < target) →
      findPriceAtAux adjusted target i ts = Except.ok none := by
  intro ts
  induction ts with
  | nil =>
      intro i _
      rfl
  | cons t rest ih =>
      intro i h
      rw [findPriceAtAux, if_neg (not_le.mpr (h t (List.mem_cons_self t rest)))]
      exact ih (i + 1) (fun u hu => h u (List.mem_cons_of_mem t hu))

/-- An annotation dated after every series timestamp is a no-op for the
simulate loop body. -/
theorem simStep_skip (R : RealFns) (st : OptionSettings) (timestamps : List Int)
    (adjusted : List ℚ) (acc : SimAcc) (a : TradeAnn)
    (hlate : ∀ t ∈ timestamps, t < a.timestamp) :
    simStep R st timestamps adjusted acc a = Except.ok acc := by
  have h := findPriceAtAux_none adjusted a.timestamp timestamps 0 hlate
  simp only [simStep, findPriceAtTimestamp, h]

/-- Removing an annotation dated after every series timestamp from anywhere
in the processed list leaves the whole simulate loop unchanged. -/
theorem simulateLoop_skip (R : RealFns) (st : OptionSettings)
    (timestamps : List Int) (adjusted : List ℚ) (a : TradeAnn)
    (hlate : ∀ t ∈ timestamps, t < a.timestamp) :
    ∀ (l₁ l₂ : List TradeAnn) (acc : SimAcc),
      simulateLoop R st timestamps adjusted (l₁ ++ a :: l₂) acc =
      simulateLoop R st timestamps adjusted (l₁ ++ l₂) acc := by
  intro l₁
  induction l₁ with
  | nil =>
      intro l₂ acc
      rw [List.nil_append, List.nil_append, simulateLoop,
        simStep_skip R st timestamps adjusted acc a hlate]
  | cons b bs ih =>
      intro l₂ acc
      rw [List.cons_append, List.cons_append]
      cases hsb : simStep R st timestamps adjusted acc b with
      | error e => rw [simulateLoop, hsb, simulateLoop, hsb]
      | ok acc2 =>
          rw [simulateLoop, hsb, simulateLoop, hsb]
          exact ih l₂ acc2

/-- C9: for an annotation whose timestamp is strictly after every timestamp
of the data series, ManualSimulator.simulate behaves exactly as if the
annotation were absent: it produces no SimulatedTrade for it, contributes
nothing to any field of the aggregate ManualBacktestStats, and introduces no
failure (the skip path touches no list index). -/
theorem c9_late_ann_skipped (R : RealFns) (sim : ManualSimulator) (a : TradeAnn)
    (l₁ l₂ : List TradeAnn) (hanns : sim.anns = l₁ ++ a :: l₂)
    (hlate : ∀ t ∈ sim.timestamps, t < a.timestamp) :
    sim.simulate R = ManualSimulator.simulate R { sim with anns := l₁ ++ l₂ } := by
  rw [ManualSimulator.simulate, ManualSimulator.simulate]
  rw [hanns,
    simulateLoop_skip R sim.settings sim.timestamps
      (applyScenario sim.settings sim.price_series) a hlate l₁ l₂]

/-- Annotation dated after the whole series, used by the C9 witness. -/
def c9Ann : TradeAnn :=
  { id := "a1", timestamp := 5, type := "call", action := "buy",
    strike := 100, expiry := "2024-01-19" }

/-- Two-point simulator input containing only the late annotation, used by
the C9 witness. -/
def c9Sim : ManualSimulator :=
  { anns := [c9Ann], timestamps := [1, 2], price_series := [10, 11],
    settings := {} }

/-- C9 witness: the theorem applied to the concrete two-point series. -/
theorem c9_witness :
    c9Sim.anns = [] ++ c9Ann :: [] ∧
    (∀ t ∈ c9Sim.timestamps, t < c9Ann.timestamp) ∧
    c9Sim.simulate qIdFns =
      ManualSimulator.simulate qIdFns { c9Sim with anns := [] ++ [] } :=
  ⟨rfl, by decide,
   c9_late_ann_skipped qIdFns c9Sim c9Ann [] [] rfl (by decide)⟩

end RelayTrader
